import Mathlib

/-!
Shallow embedding of the slide-extraction and density-classification core of
`src/backend/ppt_parser.py` (class `PowerPointParser`), together with theorems
settling the specification claims about it.

Strings are modelled as `List Char` (`Str`), so that Python's
whitespace-sensitive `str.strip` / `str.split` semantics can be defined and
reasoned about directly.  Shape descriptors follow the source's duck-typed
attribute probing: optionally present attributes become `Option` fields.
Font sizes are carried in the source's own representation — python-pptx's
`Length`, an integer EMU count with `Pt(1) = 12700` — so `int(size.pt)`,
truncation of the exact point value, is the ℕ division `emu / 12700`
(see `emu_div_eq_floor` and `roundedPt_eq_round` for the link to floor and
round on the exact rational point value).
-/

namespace PPT

abbrev Str := List Char

/-- Python `str` whitespace as used by `str.strip()` / `str.split()`
(ASCII fragment: space, tab, newline, carriage return, vertical tab, form feed). -/
def pyIsSpace (c : Char) : Bool :=
  c = ' ' || c = '\t' || c = '\n' || c = '\r' || c = Char.ofNat 11 || c = Char.ofNat 12

/-- ASCII lowering, as performed by Python `str.lower()` on the names that occur here. -/
def lowerChar (c : Char) : Char :=
  if 'A' ≤ c ∧ c ≤ 'Z' then Char.ofNat (c.toNat + 32) else c

def lowerStr (s : Str) : Str := s.map lowerChar

/-- Python `str.strip()`: drop leading and trailing whitespace. -/
def pyStrip (s : Str) : Str :=
  ((s.dropWhile (pyIsSpace ·)).reverse.dropWhile (pyIsSpace ·)).reverse

/-- `p` is a leading segment of `s` (Python `str.startswith`). -/
def leadsWith : Str → Str → Bool
  | [], _ => true
  | _ :: _, [] => false
  | a :: as, b :: bs => a = b && leadsWith as bs

/-- `p` occurs as a contiguous segment of `s` (Python `p in s`). -/
def occursIn (p : Str) : Str → Bool
  | [] => p.isEmpty
  | c :: cs => leadsWith p (c :: cs) || occursIn p cs

/-- Accumulator-based whitespace tokenizer: `splitAux acc s` finishes the token
collected (reversed) in `acc` and splits the rest of `s` on whitespace runs. -/
def splitAux : Str → Str → List Str
  | acc, [] => if acc.isEmpty then [] else [acc.reverse]
  | acc, c :: cs =>
    if pyIsSpace c then
      if acc.isEmpty then splitAux [] cs else acc.reverse :: splitAux [] cs
    else splitAux (c :: acc) cs

/-- Python `str.split()` with no argument: split on whitespace runs, no empty tokens. -/
def pySplit (s : Str) : List Str := splitAux [] s

/-- `len(s.split())`. -/
def wordCount (s : Str) : ℕ := (pySplit s).length

/-- One point in EMU: python-pptx's `Length` is an integer EMU count and
`Pt(1) = 12700` EMU, so a font size of `e` EMU is exactly `e / 12700` points. -/
def emuPerPt : ℕ := 12700

/-! ### Shape / slide / presentation data (inputs from python-pptx) -/

/-- One text run: its explicit font size as a `Length`, i.e. an EMU count
(`run.font.size`); `none` when the run declares no explicit size. -/
structure TextRun where
  sizeEmu : Option ℕ
deriving DecidableEq, Repr

/-- One paragraph of a text frame: its runs, its flattened text, its nesting level. -/
structure Paragraph where
  runs : List TextRun
  text : Str
  level : ℕ
deriving DecidableEq, Repr

structure TextFrame where
  paragraphs : List Paragraph
deriving DecidableEq, Repr

/-- A shape descriptor.  `text = none` models a shape without a `.text`
attribute, `frame = none` one without a `.text_frame` attribute
(the source probes both with `hasattr`).  `shapeType 13` is a picture. -/
structure Shape where
  text : Option Str
  name : Str
  frame : Option TextFrame
  shapeType : ℤ
deriving DecidableEq, Repr

structure Slide where
  shapes : List Shape
  layoutName : Str
deriving DecidableEq, Repr

/-- Presentation core properties; `none` models a missing/falsy value
(`None`, or the empty string for the text properties).  Timestamps are
carried in already-rendered `str(...)` form. -/
structure CoreProps where
  title : Option Str
  author : Option Str
  subject : Option Str
  keywords : Option Str
  created : Option Str
  modified : Option Str
deriving DecidableEq, Repr

structure Presentation where
  slides : List Slide
  coreProperties : CoreProps
deriving DecidableEq, Repr

/-! ### `_extract_slide_content` -/

structure SlideRecord where
  slideNumber : ℕ
  textContent : Str
  title : Str
  subtitle : Str
  bullets : List (Str × ℕ)
  imagesCount : ℕ
  shapesCount : ℕ
  fontSizes : List ℕ
  wordCount : ℕ
  layoutName : Str
deriving DecidableEq, Repr

/-- The mutable fields of `slide_data` threaded through the shape loop. -/
structure ExtractState where
  textContent : Str
  title : Str
  subtitle : Str
  bullets : List (Str × ℕ)
  fontSizes : List ℕ
  imageCount : ℕ
deriving DecidableEq, Repr

def initState : ExtractState :=
  { textContent := [], title := [], subtitle := [], bullets := [],
    fontSizes := [], imageCount := 0 }

/-- Font sizes contributed by one text frame: `int(run.font.size.pt)` for
every run whose `run.font.size` is truthy (a `Length` of 0 EMU is falsy in
Python, like `None`).  `int(...)` truncates the non-negative point value
toward zero, which on the exact value `e / 12700` is `e / 12700` in ℕ. -/
def frameFontSizes (tf : TextFrame) : List ℕ :=
  tf.paragraphs.flatMap fun p =>
    p.runs.filterMap fun r =>
      match r.sizeEmu with
      | some e => if e ≠ 0 then some (e / emuPerPt) else none
      | none => none

/-- Bullets contributed by one text frame: `{text, level}` for every
paragraph whose stripped text is non-empty, in paragraph order. -/
def frameBullets (tf : TextFrame) : List (Str × ℕ) :=
  tf.paragraphs.filterMap fun p =>
    if (pyStrip p.text).isEmpty then none else some (p.text, p.level)

/-- One iteration of the `for shape in slide.shapes` loop of
`_extract_slide_content`. -/
def shapeStep (st : ExtractState) (sh : Shape) : ExtractState :=
  let st1 :=
    match sh.text with
    | some t =>
      if (pyStrip t).isEmpty then st
      else
        let stA := { st with textContent := st.textContent ++ t ++ ['\n'] }
        let stB :=
          match sh.frame with
          | some tf => { stA with fontSizes := stA.fontSizes ++ frameFontSizes tf }
          | none => stA
        if occursIn ("title".data) (lowerStr sh.name) then { stB with title := t }
        else if occursIn ("subtitle".data) (lowerStr sh.name) then { stB with subtitle := t }
        else if leadsWith ("List".data) sh.name then
          match sh.frame with
          | some tf => { stB with bullets := stB.bullets ++ frameBullets tf }
          | none => stB
        else stB
    | none => st
  if sh.shapeType = 13 then { st1 with imageCount := st1.imageCount + 1 } else st1

/-- `_extract_slide_content(slide, slide_number)`.  Note the source computes
`word_count` from `text_content` before the final `strip()`. -/
def extractSlideContent (slide : Slide) (slideNumber : ℕ) : SlideRecord :=
  let st := slide.shapes.foldl shapeStep initState
  { slideNumber := slideNumber
    textContent := pyStrip st.textContent
    title := st.title
    subtitle := st.subtitle
    bullets := st.bullets
    imagesCount := st.imageCount
    shapesCount := slide.shapes.length
    fontSizes := st.fontSizes
    wordCount := wordCount st.textContent
    layoutName := slide.layoutName }

/-- The `for idx, slide in enumerate(...)` loop, starting the 1-based
numbering at `n`. -/
def extractFrom (n : ℕ) : List Slide → List SlideRecord
  | [] => []
  | s :: rest => extractSlideContent s n :: extractFrom (n + 1) rest

/-- `extract_all_slides`. -/
def extractAllSlides (p : Presentation) : List SlideRecord :=
  extractFrom 1 p.slides

/-! ### Metadata, density analysis, aggregation -/

structure PresentationMetadata where
  title : Str
  author : Str
  subject : Str
  keywords : Str
  totalSlides : ℕ
  created : Str
  modified : Str
deriving DecidableEq, Repr

/-- Python `x or default` for an optional/falsy string. -/
def orDefault (o : Option Str) (d : Str) : Str :=
  match o with
  | some t => if t.isEmpty then d else t
  | none => d

/-- `get_presentation_metadata`.  `str(x) if x else ""` for the timestamps
becomes `Option.getD` over the already-rendered value. -/
def getPresentationMetadata (p : Presentation) : PresentationMetadata :=
  let cp := p.coreProperties
  { title := orDefault cp.title ("Untitled".data)
    author := orDefault cp.author ("Unknown".data)
    subject := orDefault cp.subject []
    keywords := orDefault cp.keywords []
    totalSlides := p.slides.length
    created := cp.created.getD []
    modified := cp.modified.getD [] }

structure DensityAnalysis where
  wordCount : ℕ
  bulletCount : ℕ
  imageCount : ℕ
  textDensityScore : ℚ
  densityRating : Str
  recommendation : Str
deriving DecidableEq, Repr

/-- `_get_density_recommendation`: a fixed string per rating, `""` otherwise. -/
def getDensityRecommendation (rating : Str) : Str :=
  if rating = "optimal".data then "Slide has good text-to-visual balance".data
  else if rating = "too_dense".data then
    "Too much text. Consider condensing or splitting into multiple slides.".data
  else if rating = "too_sparse".data then
    "Too little content. Add more information or visuals.".data
  else []

/-- `analyze_slide_density`. -/
def analyzeSlideDensity (r : SlideRecord) : DensityAnalysis :=
  let wc := r.wordCount
  let textDensity : ℚ := min ((wc : ℚ) / 100) 1 * 100
  let rating : Str :=
    if wc > 150 then "too_dense".data
    else if wc < 20 ∧ r.imagesCount = 0 then "too_sparse".data
    else "optimal".data
  { wordCount := wc
    bulletCount := r.bullets.length
    imageCount := r.imagesCount
    textDensityScore := textDensity
    densityRating := rating
    recommendation := getDensityRecommendation rating }

/-- One entry of the `slides` list of `get_all_analysis`:
the slide record together with its `density_analysis`. -/
structure SlideAnalysis where
  record : SlideRecord
  densityAnalysis : DensityAnalysis
deriving DecidableEq, Repr

structure PresentationAnalysis where
  metadata : PresentationMetadata
  slides : List SlideAnalysis
deriving DecidableEq, Repr

/-- `get_all_analysis` on a loaded presentation (a fresh pass populates
`slides_data` via `extract_all_slides`). -/
def getAllAnalysis (p : Presentation) : PresentationAnalysis :=
  { metadata := getPresentationMetadata p
    slides := (extractAllSlides p).map fun r => ⟨r, analyzeSlideDensity r⟩ }

/-! ### Loading (`__init__` / `_load_presentation`)

The file system is a partial map from paths to parsed presentations:
`none` covers both a nonexistent path (`FileNotFoundError`) and a file the
underlying library cannot open (`Presentation(...)` raising); in either case
`_load_presentation` re-raises, which we model with `Except`. -/

abbrev FileSystem := Str → Option Presentation

/-- `PowerPointParser.__init__` → `_load_presentation`: a single attempt,
error surfaced immediately (carrying the path). -/
def loadPresentation (fs : FileSystem) (path : Str) : Except Str Presentation :=
  match fs path with
  | none => .error path
  | some p => .ok p

/-- Construct the parser, then run the whole aggregation: either the load
fails and nothing is produced, or the complete analysis is produced. -/
def analyzeFile (fs : FileSystem) (path : Str) : Except Str PresentationAnalysis :=
  (loadPresentation fs path).map getAllAnalysis

/-! ### Spec-side definitions

These restate parts of the specification in its own words, to be compared
with the embedded source functions above. -/

/-- A shape takes part in text aggregation: it has a `.text` attribute whose
stripped value is non-empty. -/
def shapeQualifies (sh : Shape) : Bool :=
  match sh.text with
  | some t => !(pyStrip t).isEmpty
  | none => false

/-- A font size "in points, rounded to the nearest integer": the exact point
value of `e` EMU is `e / 12700`, and rounding half up gives
`(e + 6350) / 12700`. -/
def roundedPt (e : ℕ) : ℕ := (e + emuPerPt / 2) / emuPerPt

/-- The font sizes as the specification words them: one entry per run that
declares an explicit size, rounded to the nearest point, in encounter order,
collected from every shape. -/
def claimedFontSizes (shs : List Shape) : List ℕ :=
  shs.flatMap fun sh =>
    match sh.frame with
    | some tf => tf.paragraphs.flatMap fun p =>
        p.runs.filterMap fun r => r.sizeEmu.map roundedPt
    | none => []

/-- Per-shape font-size contribution as the source makes it: only shapes
with non-blank text and a text frame contribute, independently of the
name-classification branch. -/
def shapeFonts (sh : Shape) : List ℕ :=
  if shapeQualifies sh then
    match sh.frame with
    | some tf => frameFontSizes tf
    | none => []
  else []

/-- The font sizes the source actually collects: per shape with non-blank
text and a text frame, one entry per run with a truthy explicit size,
truncated (not rounded) to whole points, in encounter order. -/
def amendedFontSizes (shs : List Shape) : List ℕ :=
  shs.flatMap shapeFonts

/-- The bullets as the specification words them: every shape whose name
begins with "List" (with non-blank text and a text frame) contributes its
non-blank paragraphs in order. -/
def claimedBullets (shs : List Shape) : List (Str × ℕ) :=
  shs.flatMap fun sh =>
    if shapeQualifies sh && leadsWith ("List".data) sh.name then
      match sh.frame with
      | some tf => frameBullets tf
      | none => []
    else []

/-- Per-shape bullet contribution as the source makes it: additionally the
shape's name must not contain "title" case-insensitively (the `if/elif`
chain gives the title branch priority; any name containing "subtitle" also
contains "title", so the subtitle branch never pre-empts this one). -/
def shapeBullets (sh : Shape) : List (Str × ℕ) :=
  if shapeQualifies sh && !occursIn ("title".data) (lowerStr sh.name)
      && leadsWith ("List".data) sh.name then
    match sh.frame with
    | some tf => frameBullets tf
    | none => []
  else []

/-- The bullets the source actually collects. -/
def amendedBullets (shs : List Shape) : List (Str × ℕ) :=
  shs.flatMap shapeBullets

/-- Per-shape contribution to the raw (pre-`strip`) `text_content` buffer. -/
def shapeText (sh : Shape) : Str :=
  if shapeQualifies sh then sh.text.getD [] ++ ['\n'] else []

/-- Per-shape effect on the `title` field: last match wins. -/
def shapeTitle (sh : Shape) (old : Str) : Str :=
  if shapeQualifies sh && occursIn ("title".data) (lowerStr sh.name) then
    sh.text.getD []
  else old

/-- Per-shape contribution to the picture count. -/
def shapeImage (sh : Shape) : ℕ :=
  if sh.shapeType = 13 then 1 else 0

/-! ### Lemmas: whitespace splitting is invariant under `strip` -/

theorem splitAux_all_space (ws : Str) (acc : Str) (h : ∀ c ∈ ws, pyIsSpace c) :
    splitAux acc ws = if acc.isEmpty then [] else [acc.reverse] := by
  induction ws generalizing acc with
  | nil => rfl
  | cons c cs ih =>
    have hc : pyIsSpace c := h c (List.mem_cons_self c cs)
    have hcs : ∀ x ∈ cs, pyIsSpace x := fun x hx => h x (List.mem_cons_of_mem c hx)
    by_cases hacc : acc.isEmpty
    · simp [splitAux, hc, hacc, ih [] hcs]
    · simp [splitAux, hc, hacc, ih [] hcs]

theorem splitAux_append_space (s ws : Str) (acc : Str) (h : ∀ c ∈ ws, pyIsSpace c) :
    splitAux acc (s ++ ws) = splitAux acc s := by
  induction s generalizing acc with
  | nil =>
    simpa [splitAux] using splitAux_all_space ws acc h
  | cons c cs ih =>
    by_cases hc : pyIsSpace c
    · by_cases hacc : acc.isEmpty <;> simp [splitAux, hc, hacc, ih]
    · simp [splitAux, hc, ih]

theorem pySplit_dropWhile_space (s : Str) :
    pySplit (s.dropWhile (pyIsSpace ·)) = pySplit s := by
  induction s with
  | nil => rfl
  | cons c cs ih =>
    by_cases hc : pyIsSpace c
    · simpa [List.dropWhile, hc, pySplit, splitAux] using ih
    · simp [List.dropWhile, hc]

theorem pySplit_pyStrip (s : Str) : pySplit (pyStrip s) = pySplit s := by
  set s1 := s.dropWhile (pyIsSpace ·) with hs1
  have hsrc : pySplit s1 = pySplit s := pySplit_dropWhile_space s
  have hdecomp : s1 = pyStrip s ++ (s1.reverse.takeWhile (pyIsSpace ·)).reverse := by
    have := List.takeWhile_append_dropWhile (p := (pyIsSpace ·)) (l := s1.reverse)
    calc s1 = s1.reverse.reverse := (List.reverse_reverse s1).symm
    _ = (s1.reverse.takeWhile (pyIsSpace ·) ++ s1.reverse.dropWhile (pyIsSpace ·)).reverse := by
        rw [this]
    _ = (s1.reverse.dropWhile (pyIsSpace ·)).reverse ++
          (s1.reverse.takeWhile (pyIsSpace ·)).reverse := by
        rw [List.reverse_append]
    _ = pyStrip s ++ (s1.reverse.takeWhile (pyIsSpace ·)).reverse := rfl
  have hws : ∀ c ∈ (s1.reverse.takeWhile (pyIsSpace ·)).reverse, pyIsSpace c := by
    intro c hc
    rw [List.mem_reverse] at hc
    have := List.mem_takeWhile_imp hc
    simpa using this
  calc pySplit (pyStrip s)
      = splitAux [] (pyStrip s ++ (s1.reverse.takeWhile (pyIsSpace ·)).reverse) :=
        (splitAux_append_space _ _ _ hws).symm
    _ = pySplit s1 := by rw [← hdecomp]; rfl
    _ = pySplit s := hsrc

theorem wordCount_pyStrip (s : Str) : wordCount (pyStrip s) = wordCount s := by
  unfold wordCount
  rw [pySplit_pyStrip]

/-! ### Lemmas: substring occurrence -/

theorem leadsWith_occursIn (p s : Str) (h : leadsWith p s = true) :
    occursIn p s = true := by
  cases s with
  | nil =>
    cases p with
    | nil => rfl
    | cons a as => simp [leadsWith] at h
  | cons c cs => simp [occursIn, h]

theorem leadsWith_append_occursIn (a p s : Str) (h : leadsWith (a ++ p) s = true) :
    occursIn p s = true := by
  induction a generalizing s with
  | nil => exact leadsWith_occursIn p s h
  | cons x xs ih =>
    cases s with
    | nil => simp [leadsWith] at h
    | cons y ys =>
      simp only [List.cons_append, leadsWith, Bool.and_eq_true] at h
      have := ih ys h.2
      simp [occursIn, this]

theorem occursIn_append_left (a p s : Str) (h : occursIn (a ++ p) s = true) :
    occursIn p s = true := by
  induction s with
  | nil =>
    simp only [occursIn, List.isEmpty_iff, List.append_eq_nil] at h ⊢
    exact h.2
  | cons c cs ih =>
    simp only [occursIn, Bool.or_eq_true] at h ⊢
    cases h with
    | inl h =>
      have := leadsWith_append_occursIn a p (c :: cs) h
      simpa [occursIn] using this
    | inr h => exact Or.inr (ih h)

/-- Any string containing "subtitle" also contains "title". -/
theorem occursIn_subtitle_imp_title (s : Str)
    (h : occursIn ("subtitle".data) s = true) : occursIn ("title".data) s = true := by
  have : ("subtitle".data) = ("sub".data) ++ ("title".data) := by decide
  rw [this] at h
  exact occursIn_append_left _ _ _ h

/-! ### Lemmas: characterizing the shape loop -/

/-- A name not containing "title" does not contain "subtitle" either. -/
theorem occursIn_title_of_sub (s : Str) (h : occursIn ("title".data) s = false) :
    occursIn ("subtitle".data) s = false := by
  rw [Bool.eq_false_iff] at h ⊢
  intro h2
  exact h (occursIn_subtitle_imp_title s h2)

/-- One loop iteration, written as independent per-field contributions.
In particular the `subtitle` field is never changed: the `elif` branch that
would assign it is unreachable, since its guard implies the `if` guard. -/
theorem shapeStep_eq (st : ExtractState) (sh : Shape) :
    shapeStep st sh =
      { textContent := st.textContent ++ shapeText sh
        title := shapeTitle sh st.title
        subtitle := st.subtitle
        bullets := st.bullets ++ shapeBullets sh
        fontSizes := st.fontSizes ++ shapeFonts sh
        imageCount := st.imageCount + shapeImage sh } := by
  obtain ⟨otext, name, oframe, stype⟩ := sh
  cases otext with
  | none =>
    by_cases h13 : stype = 13 <;>
      simp [shapeStep, shapeText, shapeTitle, shapeBullets, shapeFonts,
        shapeImage, shapeQualifies, h13]
  | some t =>
    by_cases hblank : (pyStrip t).isEmpty
    · by_cases h13 : stype = 13 <;>
        simp [shapeStep, shapeText, shapeTitle, shapeBullets, shapeFonts,
          shapeImage, shapeQualifies, h13, hblank]
    · simp only [Bool.not_eq_true] at hblank
      by_cases htitle : occursIn ("title".data) (lowerStr name)
      · by_cases h13 : stype = 13 <;> cases oframe <;>
          simp [shapeStep, shapeText, shapeTitle, shapeBullets, shapeFonts,
            shapeImage, shapeQualifies, h13, hblank, htitle]
      · simp only [Bool.not_eq_true] at htitle
        have hsub := occursIn_title_of_sub _ htitle
        by_cases hlist : leadsWith ("List".data) name
        · by_cases h13 : stype = 13 <;> cases oframe <;>
            simp [shapeStep, shapeText, shapeTitle, shapeBullets, shapeFonts,
              shapeImage, shapeQualifies, h13, hblank, htitle, hsub, hlist]
        · simp only [Bool.not_eq_true] at hlist
          by_cases h13 : stype = 13 <;> cases oframe <;>
            simp [shapeStep, shapeText, shapeTitle, shapeBullets, shapeFonts,
              shapeImage, shapeQualifies, h13, hblank, htitle, hsub, hlist]

/-- The whole shape loop, per fields. -/
theorem foldl_shapeStep (st : ExtractState) (shs : List Shape) :
    shs.foldl shapeStep st =
      { textContent := st.textContent ++ shs.flatMap shapeText
        title := shs.foldl (fun old sh => shapeTitle sh old) st.title
        subtitle := st.subtitle
        bullets := st.bullets ++ amendedBullets shs
        fontSizes := st.fontSizes ++ amendedFontSizes shs
        imageCount := st.imageCount + (shs.map shapeImage).sum } := by
  induction shs generalizing st with
  | nil => simp [amendedBullets, amendedFontSizes]
  | cons sh rest ih =>
    rw [List.foldl_cons, shapeStep_eq, ih]
    simp [amendedBullets, amendedFontSizes, List.append_assoc, Nat.add_assoc]

theorem extract_subtitle (slide : Slide) (n : ℕ) :
    (extractSlideContent slide n).subtitle = [] := by
  unfold extractSlideContent
  rw [foldl_shapeStep]
  rfl

theorem extract_bullets (slide : Slide) (n : ℕ) :
    (extractSlideContent slide n).bullets = amendedBullets slide.shapes := by
  unfold extractSlideContent
  rw [foldl_shapeStep]
  rfl

theorem extract_fontSizes (slide : Slide) (n : ℕ) :
    (extractSlideContent slide n).fontSizes = amendedFontSizes slide.shapes := by
  unfold extractSlideContent
  rw [foldl_shapeStep]
  rfl

/-! ### Lemmas: slide numbering -/

theorem extractFrom_length (n : ℕ) (l : List Slide) :
    (extractFrom n l).length = l.length := by
  induction l generalizing n with
  | nil => rfl
  | cons s rest ih => simp [extractFrom, ih]

theorem extractFrom_slideNumber (n : ℕ) (l : List Slide) (i : ℕ)
    (h : i < (extractFrom n l).length) :
    ((extractFrom n l).get ⟨i, h⟩).slideNumber = n + i := by
  induction l generalizing n i with
  | nil => simp [extractFrom] at h
  | cons s rest ih =>
    cases i with
    | zero => rfl
    | succ j =>
      have hj : j < (extractFrom (n + 1) rest).length := by
        simpa [extractFrom] using h
      have := ih (n + 1) j hj
      simpa [extractFrom, Nat.add_assoc, Nat.add_comm 1 j] using this

/-! ### Lemmas: EMU arithmetic matches floor and round on exact point values -/

/-- Truncating the exact point value of `e` EMU is the ℕ division `e / 12700`. -/
theorem emu_div_eq_floor (e : ℕ) :
    ((e / emuPerPt : ℕ) : ℤ) = ⌊(e : ℚ) / (emuPerPt : ℚ)⌋ := by
  have h : ((e : ℤ) : ℚ) / ((emuPerPt : ℕ) : ℚ) = (e : ℚ) / (emuPerPt : ℚ) := by
    push_cast
    ring
  rw [← h, Rat.floor_intCast_div_natCast, Int.natCast_div]

/-- `roundedPt` is rounding the exact point value of `e` EMU to the nearest
integer (half up). -/
theorem roundedPt_eq_round (e : ℕ) :
    ((roundedPt e : ℕ) : ℤ) = round ((e : ℚ) / (emuPerPt : ℚ)) := by
  have hval : (e : ℚ) / (emuPerPt : ℚ) + 1 / 2 =
      (((2 * e + emuPerPt : ℕ) : ℤ) : ℚ) / ((2 * emuPerPt : ℕ) : ℚ) := by
    push_cast [emuPerPt]
    field_simp
    ring
  rw [round_eq, hval, Rat.floor_intCast_div_natCast, ← Int.natCast_div]
  have h2 : (2 * e + emuPerPt) / (2 * emuPerPt) = (e + emuPerPt / 2) / emuPerPt := by
    have he : 2 * e + emuPerPt = 2 * (e + emuPerPt / 2) := by
      simp only [emuPerPt]
      omega
    rw [he, Nat.mul_div_mul_left _ _ (by norm_num : 0 < 2)]
  rw [h2]
  rfl

/-! ### Concrete sample inputs used by witnesses and counterexamples -/

/-- A slide record with given word and image counts (the classifier only
reads those two fields and `bullets`). -/
def sampleRecord (wc imgs : ℕ) : SlideRecord :=
  ⟨1, [], [], [], [], imgs, 0, [], wc, []⟩

/-- A two-slide presentation with no optional core properties. -/
def samplePres : Presentation :=
  ⟨[⟨[], "L1".data⟩, ⟨[], "L2".data⟩], ⟨none, none, none, none, none, none⟩⟩

/-- A shape with non-blank text and one run of 134620 EMU = 10.6 pt. -/
def shapeRunTenPointSix : Shape :=
  ⟨some ("hi".data), "x".data, some ⟨[⟨[⟨some 134620⟩], "hi".data, 0⟩]⟩, 0⟩

/-- A shape with whitespace-only text and one run of 152400 EMU = 12 pt. -/
def shapeBlankTwelvePt : Shape :=
  ⟨some (" ".data), "y".data, some ⟨[⟨[⟨some 152400⟩], " ".data, 0⟩]⟩, 0⟩

/-- A shape whose name begins with "List" but also contains "title". -/
def shapeListTitle : Shape :=
  ⟨some ("X".data), "List title".data, some ⟨[⟨[], "X".data, 0⟩]⟩, 0⟩

/-- The bullet-extraction example slide: "List Placeholder 1" with
paragraphs "Point A" (level 0), "" (blank), "Point B" (level 1). -/
def sampleBulletSlide : Slide :=
  ⟨[⟨some ("Point A\nPoint B".data), "List Placeholder 1".data,
      some ⟨[⟨[], "Point A".data, 0⟩, ⟨[], "".data, 0⟩, ⟨[], "Point B".data, 1⟩]⟩, 0⟩], []⟩

/-! ### Claims -/

/-- C1: the claim says a shape whose name contains "subtitle"
case-insensitively assigns the `subtitle` field.  The code never does: any
name containing "subtitle" also contains "title", so the `if "title" in
name` branch always wins and the `elif "subtitle" in name` branch is dead.
At the failing input — one shape named "Subtitle 1" with text "Hello" —
the record gets `title = "Hello"` and `subtitle = ""`. -/
theorem claim_C1_subtitle_never_assigned :
    (extractSlideContent
        ⟨[⟨some ("Hello".data), "Subtitle 1".data, none, 0⟩], "Layout".data⟩ 1).subtitle
      = [] ∧
    (extractSlideContent
        ⟨[⟨some ("Hello".data), "Subtitle 1".data, none, 0⟩], "Layout".data⟩ 1).title
      = "Hello".data := by
  constructor <;> decide

/-- C2: density rating thresholds.  With `images_count = 0` the rating is
`too_sparse` for `word_count ∈ [0,19]`, `optimal` for `[20,150]`, and
`too_dense` for `word_count ≥ 151`; for any image count, `word_count > 150`
yields `too_dense`. -/
theorem claim_C2_density_thresholds (r : SlideRecord) :
    (r.imagesCount = 0 →
      (r.wordCount ≤ 19 →
        (analyzeSlideDensity r).densityRating = "too_sparse".data) ∧
      (20 ≤ r.wordCount → r.wordCount ≤ 150 →
        (analyzeSlideDensity r).densityRating = "optimal".data) ∧
      (151 ≤ r.wordCount →
        (analyzeSlideDensity r).densityRating = "too_dense".data)) ∧
    (150 < r.wordCount →
      (analyzeSlideDensity r).densityRating = "too_dense".data) := by
  constructor
  · intro h0
    refine ⟨fun h19 => ?_, fun h20 h150 => ?_, fun h151 => ?_⟩
    · simp only [analyzeSlideDensity]
      rw [if_neg (by omega), if_pos (by omega)]
    · simp only [analyzeSlideDensity]
      rw [if_neg (by omega), if_neg (by omega)]
    · simp only [analyzeSlideDensity]
      rw [if_pos (by omega)]
  · intro hd
    simp only [analyzeSlideDensity]
    rw [if_pos (by omega)]

/-- Witness for C2: ratings at word counts 10, 50, 200 with no images, and
at word count 160 with images. -/
theorem claim_C2_density_thresholds_witness :
    (analyzeSlideDensity (sampleRecord 10 0)).densityRating = "too_sparse".data ∧
    (analyzeSlideDensity (sampleRecord 50 0)).densityRating = "optimal".data ∧
    (analyzeSlideDensity (sampleRecord 200 0)).densityRating = "too_dense".data ∧
    (analyzeSlideDensity (sampleRecord 160 1)).densityRating = "too_dense".data :=
  ⟨((claim_C2_density_thresholds (sampleRecord 10 0)).1 rfl).1 (by decide),
   (((claim_C2_density_thresholds (sampleRecord 50 0)).1 rfl).2.1 (by decide) (by decide)),
   (((claim_C2_density_thresholds (sampleRecord 200 0)).1 rfl).2.2 (by decide)),
   (claim_C2_density_thresholds (sampleRecord 160 1)).2 (by decide)⟩

/-- C3: for every extracted slide record, `word_count` equals the number of
whitespace tokens of the final trimmed `text_content`, although the code
computes it before the trim — splitting is invariant under `strip`. -/
theorem claim_C3_word_count_invariant (slide : Slide) (n : ℕ) :
    (extractSlideContent slide n).wordCount =
      wordCount (extractSlideContent slide n).textContent :=
  (wordCount_pyStrip ((slide.shapes.foldl shapeStep initState).textContent)).symm

/-- C4: aggregation numbers slides 1-based by iteration order with no gaps
or duplicates, and the slide list length equals `metadata.total_slides`. -/
theorem claim_C4_ordering_and_count (p : Presentation) :
    (getAllAnalysis p).slides.length = (getAllAnalysis p).metadata.totalSlides ∧
    ∀ i (h : i < (getAllAnalysis p).slides.length),
      ((getAllAnalysis p).slides.get ⟨i, h⟩).record.slideNumber = i + 1 := by
  constructor
  · simp [getAllAnalysis, getPresentationMetadata, extractAllSlides, extractFrom_length]
  · intro i h
    have hlen : i < (extractAllSlides p).length := by
      simpa [getAllAnalysis] using h
    have hget : ((getAllAnalysis p).slides.get ⟨i, h⟩).record =
        (extractAllSlides p).get ⟨i, hlen⟩ := by
      simp [getAllAnalysis]
    rw [hget]
    have := extractFrom_slideNumber 1 p.slides i (by simpa [extractAllSlides] using hlen)
    simpa [extractAllSlides, Nat.add_comm] using this

/-- Witness for C4: on the two-slide sample presentation, the slide count
matches the metadata and the second slide is numbered 2. -/
theorem claim_C4_ordering_and_count_witness :
    (getAllAnalysis samplePres).slides.length =
      (getAllAnalysis samplePres).metadata.totalSlides ∧
    ((getAllAnalysis samplePres).slides.get ⟨1, by decide⟩).record.slideNumber = 2 :=
  ⟨(claim_C4_ordering_and_count samplePres).1,
   (claim_C4_ordering_and_count samplePres).2 1 (by decide)⟩

/-- C5: the density score is `min(word_count / 100, 1.0) * 100`: it is 0 at
word count 0, 100 at word count 100, and saturates at 100 for every word
count of at least 100. -/
theorem claim_C5_density_score (r : SlideRecord) :
    (analyzeSlideDensity r).textDensityScore =
      min ((r.wordCount : ℚ) / 100) 1 * 100 ∧
    (r.wordCount = 0 → (analyzeSlideDensity r).textDensityScore = 0) ∧
    (r.wordCount = 100 → (analyzeSlideDensity r).textDensityScore = 100) ∧
    (100 ≤ r.wordCount → (analyzeSlideDensity r).textDensityScore = 100) := by
  have hform : (analyzeSlideDensity r).textDensityScore =
      min ((r.wordCount : ℚ) / 100) 1 * 100 := rfl
  refine ⟨hform, fun h0 => ?_, fun h100 => ?_, fun hge => ?_⟩
  · rw [hform, h0]
    norm_num
  · rw [hform, h100]
    norm_num
  · rw [hform, min_eq_right, one_mul]
    rw [le_div_iff₀ (by norm_num : (0 : ℚ) < 100), one_mul]
    exact_mod_cast hge

/-- Witness for C5: score values at word counts 0, 100 and 500. -/
theorem claim_C5_density_score_witness :
    (analyzeSlideDensity (sampleRecord 0 0)).textDensityScore = 0 ∧
    (analyzeSlideDensity (sampleRecord 100 0)).textDensityScore = 100 ∧
    (analyzeSlideDensity (sampleRecord 500 0)).textDensityScore = 100 :=
  ⟨(claim_C5_density_score (sampleRecord 0 0)).2.1 rfl,
   (claim_C5_density_score (sampleRecord 100 0)).2.2.1 rfl,
   (claim_C5_density_score (sampleRecord 500 0)).2.2.2 (by decide)⟩

/-- C6 counterexample: the claim predicts one entry per run with an explicit
size from every shape, rounded to the nearest point.  On a shape with a
10.6 pt run (134620 EMU) and a whitespace-only shape with a 12 pt run
(152400 EMU), the code collects `[10]` — it truncates instead of rounding
and skips shapes whose text is blank — while the claim predicts `[11, 12]`. -/
theorem claim_C6_counterexample :
    (extractSlideContent ⟨[shapeRunTenPointSix, shapeBlankTwelvePt], []⟩ 1).fontSizes
      = [10] ∧
    claimedFontSizes [shapeRunTenPointSix, shapeBlankTwelvePt] = [11, 12] ∧
    (extractSlideContent ⟨[shapeRunTenPointSix, shapeBlankTwelvePt], []⟩ 1).fontSizes
      ≠ claimedFontSizes [shapeRunTenPointSix, shapeBlankTwelvePt] := by
  refine ⟨?_, ?_, ?_⟩ <;> decide

/-- C6 (amended): `font_sizes` holds one entry per run with a truthy
explicit size — the point value truncated toward zero, not rounded — in
encounter order, collected from every shape that has non-blank text and a
text frame, independently of which classification branch applies. -/
theorem claim_C6_font_sizes_amended (slide : Slide) (n : ℕ) :
    (extractSlideContent slide n).fontSizes = amendedFontSizes slide.shapes :=
  extract_fontSizes slide n

/-- C7: loading is attempted exactly once; an unopenable path surfaces the
error immediately and yields no analysis at all, while a loadable one yields
the complete analysis of the whole presentation. -/
theorem claim_C7_load_error (fs : FileSystem) (path : Str) :
    (fs path = none → analyzeFile fs path = .error path) ∧
    (∀ p, fs path = some p → analyzeFile fs path = .ok (getAllAnalysis p)) := by
  constructor
  · intro h
    simp [analyzeFile, loadPresentation, h, Except.map]
  · intro p h
    simp [analyzeFile, loadPresentation, h, Except.map]

/-- Witness for C7: a missing path errors; a present one yields the full
analysis. -/
theorem claim_C7_load_error_witness :
    analyzeFile (fun _ => none) ("missing.pptx".data) = .error ("missing.pptx".data) ∧
    analyzeFile (fun _ => some samplePres) ("deck.pptx".data)
      = .ok (getAllAnalysis samplePres) :=
  ⟨(claim_C7_load_error (fun _ => none) ("missing.pptx".data)).1 rfl,
   (claim_C7_load_error (fun _ => some samplePres) ("deck.pptx".data)).2 samplePres rfl⟩

/-- C8 counterexample: the claim quantifies over every shape whose name
begins with "List", but a shape named "List title" (non-blank text "X",
a text frame with paragraph "X") is captured by the title branch and
contributes no bullets, while the claim predicts `[("X", 0)]`. -/
theorem claim_C8_counterexample :
    (extractSlideContent ⟨[shapeListTitle], []⟩ 1).bullets = [] ∧
    claimedBullets [shapeListTitle] = [("X".data, 0)] ∧
    (extractSlideContent ⟨[shapeListTitle], []⟩ 1).bullets
      ≠ claimedBullets [shapeListTitle] := by
  refine ⟨?_, ?_, ?_⟩ <;> decide

/-- C8 (amended): a shape contributes its non-blank paragraphs as bullets,
in paragraph order, exactly when its name begins with "List", it has
non-blank text and a text frame, and its name does not contain "title"
case-insensitively; the claim's own example slide extracts as stated. -/
theorem claim_C8_bullets_amended :
    (∀ (slide : Slide) (n : ℕ),
      (extractSlideContent slide n).bullets = amendedBullets slide.shapes) ∧
    (extractSlideContent sampleBulletSlide 1).bullets
      = [("Point A".data, 0), ("Point B".data, 1)] :=
  ⟨fun slide n => extract_bullets slide n, by decide⟩

/-- C9: every missing optional core property resolves to its fixed
placeholder: title → "Untitled", author → "Unknown", subject/keywords → "",
created/modified → "". -/
theorem claim_C9_metadata_defaults (p : Presentation) :
    (p.coreProperties.title = none →
      (getPresentationMetadata p).title = "Untitled".data) ∧
    (p.coreProperties.author = none →
      (getPresentationMetadata p).author = "Unknown".data) ∧
    (p.coreProperties.subject = none → (getPresentationMetadata p).subject = []) ∧
    (p.coreProperties.keywords = none → (getPresentationMetadata p).keywords = []) ∧
    (p.coreProperties.created = none → (getPresentationMetadata p).created = []) ∧
    (p.coreProperties.modified = none → (getPresentationMetadata p).modified = []) := by
  refine ⟨fun h => ?_, fun h => ?_, fun h => ?_, fun h => ?_, fun h => ?_, fun h => ?_⟩ <;>
    simp [getPresentationMetadata, orDefault, h]

/-- Witness for C9: the sample presentation with no core properties gets
all placeholders. -/
theorem claim_C9_metadata_defaults_witness :
    (getPresentationMetadata samplePres).title = "Untitled".data ∧
    (getPresentationMetadata samplePres).author = "Unknown".data ∧
    (getPresentationMetadata samplePres).subject = [] ∧
    (getPresentationMetadata samplePres).keywords = [] ∧
    (getPresentationMetadata samplePres).created = [] ∧
    (getPresentationMetadata samplePres).modified = [] :=
  ⟨(claim_C9_metadata_defaults samplePres).1 rfl,
   (claim_C9_metadata_defaults samplePres).2.1 rfl,
   (claim_C9_metadata_defaults samplePres).2.2.1 rfl,
   (claim_C9_metadata_defaults samplePres).2.2.2.1 rfl,
   (claim_C9_metadata_defaults samplePres).2.2.2.2.1 rfl,
   (claim_C9_metadata_defaults samplePres).2.2.2.2.2 rfl⟩

/-- C10: the classification branches are mutually exclusive by the `if/elif`
chain: a shape whose name contains "title" case-insensitively changes
neither `bullets` nor `subtitle`, even when its name also begins with
"List". -/
theorem claim_C10_branch_exclusivity (st : ExtractState) (sh : Shape)
    (h : occursIn ("title".data) (lowerStr sh.name) = true) :
    (shapeStep st sh).bullets = st.bullets ∧
    (shapeStep st sh).subtitle = st.subtitle := by
  rw [shapeStep_eq]
  refine ⟨?_, rfl⟩
  simp [shapeBullets, h]

/-- Witness for C10: a shape named "List Title" (name begins with "List"
and contains "title") leaves bullets and subtitle unchanged. -/
theorem claim_C10_branch_exclusivity_witness :
    (shapeStep initState
        ⟨some ("T".data), "List Title".data, some ⟨[⟨[], "T".data, 0⟩]⟩, 0⟩).bullets
      = initState.bullets ∧
    (shapeStep initState
        ⟨some ("T".data), "List Title".data, some ⟨[⟨[], "T".data, 0⟩]⟩, 0⟩).subtitle
      = initState.subtitle :=
  claim_C10_branch_exclusivity initState
    ⟨some ("T".data), "List Title".data, some ⟨[⟨[], "T".data, 0⟩]⟩, 0⟩ (by decide)

end PPT
